import Mathlib

/-!
Verification of the PATCH authorization and merge pipeline of the bridge
scorer backend (src/server.js).  The file models, as a shallow embedding,
the redis-backed serverless handler: the recursive deepMerge with
null-as-deletion, the per-facet authorization checks of the PATCH route
(round advancement, table unlock, score write, management lock), and the
surrounding load/authorize/merge/persist pipeline.

JSON values are modelled by the inductive type Json below.  JavaScript
`undefined` (an absent property, an absent header) is modelled at the
Option layer: `none` is undefined, `some Json.null` is an explicit null.
Property access on non-objects follows JavaScript semantics for own
enumerable properties: strings expose character-index entries, arrays
expose element-index entries, numbers and booleans expose nothing
(prototype properties such as length or toString are not modelled; no
key used by the handler collides with them).  Strict equality (===) on
two object values is reference equality; the handler only ever compares
values originating from distinct JSON.parse results, so object-object
comparisons are modelled as false.
-/

inductive Json where
  | null
  | bool (b : Bool)
  | num (n : Int)
  | str (s : String)
  | arr (elems : List Json)
  | obj (fields : List (String × Json))
deriving Repr

/-- Association-list lookup of the first entry with the given key.
JavaScript objects have unique keys, so first-entry lookup agrees with
property access on any list arising from a real object. -/
def assocFind : List (String × Json) → String → Option Json
  | [], _ => none
  | (k, v) :: rest, key => if k = key then some v else assocFind rest key

/-- Own enumerable properties of a value, in enumeration order: the
fields of an object, character-index entries of a string, element-index
entries of an array, nothing for primitives.  This is what both the
object spread `{ ...x }` and `Object.keys(x)` see. -/
def spreadFields : Json → List (String × Json)
  | Json.obj fs => fs
  | Json.str s => (s.toList.enum).map (fun p => (toString p.1, Json.str (String.mk [p.2])))
  | Json.arr xs => (xs.enum).map (fun p => (toString p.1, p.2))
  | _ => []

/-- Property access x[k] on an arbitrary value; none models undefined. -/
def jsGet (j : Json) (k : String) : Option Json :=
  assocFind (spreadFields j) k

/-- x.hasOwnProperty(k) for a non-null value. -/
def jsHasOwn (j : Json) (k : String) : Bool :=
  (jsGet j k).isSome

/-- Optional-chained access x?.[k]: undefined and null short-circuit to
undefined, any other value is accessed normally. -/
def optChain (x : Option Json) (k : String) : Option Json :=
  match x with
  | none => none
  | some Json.null => none
  | some j => jsGet j k

/-- JavaScript truthiness of a JSON value. -/
def truthy : Json → Bool
  | Json.null => false
  | Json.bool b => b
  | Json.num n => n != 0
  | Json.str s => s != ""
  | Json.arr _ => true
  | Json.obj _ => true

/-- Truthiness of a possibly-undefined value. -/
def optTruthy : Option Json → Bool
  | none => false
  | some j => truthy j

/-- A request header as seen through an `if (header)` truthiness test:
an absent header and an empty-string header are both falsy. -/
def hdrVal : Option String → Option String
  | none => none
  | some s => if s = "" then none else some s

/-- Strict equality (===) between two defined JSON values.  Objects and
arrays compare by reference; the handler never compares aliased values,
so those cases are false. -/
def jsEq : Json → Json → Bool
  | Json.null, Json.null => true
  | Json.bool a, Json.bool b => a == b
  | Json.num a, Json.num b => a == b
  | Json.str a, Json.str b => a == b
  | _, _ => false

/-- Strict equality where either side may be undefined. -/
def jsEqOpt : Option Json → Option Json → Bool
  | none, none => true
  | some a, some b => jsEq a b
  | _, _ => false

/-- Does the value equal an explicit null (x === null)? -/
def isNullVal : Option Json → Bool
  | some Json.null => true
  | _ => false

/-- delete output[k]. -/
def delKey : List (String × Json) → String → List (String × Json)
  | [], _ => []
  | (k0, v0) :: rest, k =>
    if k0 = k then delKey rest k else (k0, v0) :: delKey rest k

/-- output[k] = v: replace in place when the key exists, append when it
does not, matching JavaScript property-assignment enumeration order. -/
def setKey : List (String × Json) → String → Json → List (String × Json)
  | [], k, v => [(k, v)]
  | (k0, v0) :: rest, k, v =>
    if k0 = k then (k, v) :: rest else (k0, v0) :: setKey rest k v

mutual

/-- The deepMerge helper of src/server.js: starts from a spread of the
target, and when both arguments are plain objects walks the source
fields, deleting on null, recursing when source and target both hold
the key and the source value is an object, and overwriting otherwise. -/
def deepMerge (target source : Json) : Json :=
  match target, source with
  | Json.obj tfs, Json.obj sfs => Json.obj (mergeFields (Json.obj tfs) tfs sfs)
  | t, _ => Json.obj (spreadFields t)
termination_by sizeOf source

/-- The body of the Object.keys(source).forEach loop of deepMerge,
threading the output object through the source fields in order. -/
def mergeFields (target : Json) (output : List (String × Json)) (src : List (String × Json)) : List (String × Json) :=
  match src with
  | [] => output
  | (k, v) :: rest =>
    match v with
    | Json.null => mergeFields target (delKey output k) rest
    | Json.obj vfs =>
      match jsGet target k with
      | none => mergeFields target (setKey output k (Json.obj vfs)) rest
      | some tv => mergeFields target (setKey output k (deepMerge tv (Json.obj vfs))) rest
    | w => mergeFields target (setKey output k w) rest
termination_by sizeOf src

end

/-- The sessionId of a table in the stored game:
existingGame.tables?.[n]?.sessionId. -/
def tableSessionId (existingGame : Json) (tableNum : String) : Option Json :=
  optChain (optChain (jsGet existingGame "tables") tableNum) "sessionId"

/-- Round-advancement facet (the updates.hasOwnProperty(currentRound)
block of the PATCH route): a truthy admin token is checked against the
stored adminToken; otherwise a truthy session id must match the
sessionId of table 1 or table 2; otherwise 403. -/
def roundCheck (existingGame updates : Json) (adminToken sessionId : Option String) : Option (Nat × String) :=
  if jsHasOwn updates "currentRound" then
    match hdrVal adminToken with
    | some a =>
      if jsEqOpt (jsGet existingGame "adminToken") (some (Json.str a)) then none
      else some (403, "Invalid admin token")
    | none =>
      match hdrVal sessionId with
      | some s =>
        if jsEqOpt (tableSessionId existingGame "1") (some (Json.str s))
            || jsEqOpt (tableSessionId existingGame "2") (some (Json.str s)) then none
        else some (403, "Not authorized to advance round - must be a player in this game")
      | none => some (403, "Authorization required to advance round")
  else none

/-- The body of the per-table loop of the PATCH route: the unlock check
(entry carries sessionId === null) followed by the score check (entry
carries a truthy scores field).  A null table entry raises a TypeError
at hasOwnProperty, caught by the outer handler as a 500. -/
def checkOneTable (existingGame : Json) (adminToken sessionId : Option String)
    (tableNum : String) (tableUpdate : Json) : Option (Nat × String) :=
  match tableUpdate with
  | Json.null => some (500, "Internal server error")
  | _ =>
    let existingTable := optChain (jsGet existingGame "tables") tableNum
    let unlockDenial :=
      if isNullVal (jsGet tableUpdate "sessionId") then
        match hdrVal adminToken with
        | some a =>
          if jsEqOpt (jsGet existingGame "adminToken") (some (Json.str a)) then none
          else some (403, "Invalid admin token")
        | none =>
          match hdrVal sessionId with
          | some s =>
            if jsEqOpt (optChain existingTable "sessionId") (some (Json.str s)) then none
            else some (403, "Invalid session - cannot unlock this table")
          | none => some (403, "Authorization required to unlock table")
      else none
    match unlockDenial with
    | some d => some d
    | none =>
      if optTruthy (jsGet tableUpdate "scores") then
        let existingTableSession := optChain existingTable "sessionId"
        if optTruthy existingTableSession
            && !(jsEqOpt existingTableSession (jsGet tableUpdate "sessionId")) then
          match hdrVal adminToken with
          | some a =>
            if jsEqOpt (jsGet existingGame "adminToken") (some (Json.str a)) then none
            else some (403, "Not authorized to update this table")
          | none => some (403, "Not authorized to update this table")
        else none
      else none

/-- Iteration over the entries of updates.tables, returning the first
denial.  JavaScript iterates Object.keys, which for a real parsed
object visits each (unique) key once; the model iterates the entry list
directly. -/
def tablesLoop (existingGame : Json) (adminToken sessionId : Option String) :
    List (String × Json) → Option (Nat × String)
  | [] => none
  | (tableNum, tableUpdate) :: rest =>
    match checkOneTable existingGame adminToken sessionId tableNum tableUpdate with
    | some d => some d
    | none => tablesLoop existingGame adminToken sessionId rest

/-- Table facet of the PATCH route: runs only when updates.tables is
truthy (so an absent, null, or otherwise falsy tables value skips both
the unlock and the score checks entirely). -/
def tablesCheck (existingGame updates : Json) (adminToken sessionId : Option String) : Option (Nat × String) :=
  match jsGet updates "tables" with
  | none => none
  | some tablesUpd =>
    if truthy tablesUpd then
      tablesLoop existingGame adminToken sessionId (spreadFields tablesUpd)
    else none

/-- Management-lock facet: release (requested value null) demands a
valid admin token or a session header strictly equal to the current
lock value; acquire is refused 423 only when the current lock is truthy
and differs from the requested value.  The release comparison uses the
raw session header (not its truthiness). -/
def managementCheck (existingGame updates : Json) (adminToken sessionId : Option String) : Option (Nat × String) :=
  match jsGet updates "managementSessionId" with
  | none => none
  | some requested =>
    let currentLock := jsGet existingGame "managementSessionId"
    match requested with
    | Json.null =>
      match hdrVal adminToken with
      | some a =>
        if jsEqOpt (jsGet existingGame "adminToken") (some (Json.str a)) then none
        else some (403, "Invalid admin token")
      | none =>
        if jsEqOpt (Option.map Json.str sessionId) currentLock then none
        else some (403, "Cannot release management lock - not your session")
    | req =>
      if optTruthy currentLock && !(jsEqOpt currentLock (some req)) then
        some (423, "Management is locked by another session")
      else none

/-- All authorization checks of the PATCH route, in source order,
returning the first denial encountered. -/
def authorize (existingGame updates : Json) (adminToken sessionId : Option String) : Option (Nat × String) :=
  match roundCheck existingGame updates adminToken sessionId with
  | some d => some d
  | none =>
    match tablesCheck existingGame updates adminToken sessionId with
    | some d => some d
    | none => managementCheck existingGame updates adminToken sessionId

/-- HTTP-level outcome of a PATCH request. -/
inductive Resp where
  | ok (doc : Json)
  | err (status : Nat) (msg : String)

/-- Result of one PATCH request: the response, the store content under
the game key afterwards, and whether the TTL was reset. -/
structure PatchResult where
  resp : Resp
  newStore : Option Json
  ttlRefreshed : Bool

/-- Did the request succeed? -/
def respOk : Resp → Bool
  | Resp.ok _ => true
  | Resp.err _ _ => false

/-- The PATCH route of src/server.js: reject a falsy body 400, reject a
missing document 404, run the authorization checks and surface the
first denial without touching the store, otherwise merge, persist with
a fresh 24-hour TTL, and return the merged document. -/
def handlePatch (store : Option Json) (body : Option Json)
    (adminToken sessionId : Option String) : PatchResult :=
  match body with
  | none => PatchResult.mk (Resp.err 400 "Invalid request body") store false
  | some updates =>
    if !(truthy updates) then
      PatchResult.mk (Resp.err 400 "Invalid request body") store false
    else
      match store with
      | none => PatchResult.mk (Resp.err 404 "Game not found") store false
      | some existingGame =>
        match authorize existingGame updates adminToken sessionId with
        | some d => PatchResult.mk (Resp.err d.1 d.2) store false
        | none =>
          PatchResult.mk (Resp.ok (deepMerge existingGame updates))
            (some (deepMerge existingGame updates)) true

theorem jsGet_obj (fs : List (String × Json)) (k : String) :
    jsGet (Json.obj fs) k = assocFind fs k := rfl

theorem assocFind_delKey_self (fs : List (String × Json)) (k : String) :
    assocFind (delKey fs k) k = none := by
  induction fs with
  | nil => rfl
  | cons p rest ih =>
    obtain ⟨k0, v0⟩ := p
    by_cases h : k0 = k
    · simpa [delKey, h] using ih
    · simpa [delKey, h, assocFind] using ih

theorem assocFind_delKey_ne (fs : List (String × Json)) (k k' : String) (hne : k' ≠ k) :
    assocFind (delKey fs k) k' = assocFind fs k' := by
  induction fs with
  | nil => rfl
  | cons p rest ih =>
    obtain ⟨k0, v0⟩ := p
    by_cases h : k0 = k
    · subst h
      simpa [delKey, assocFind, Ne.symm hne] using ih
    · by_cases h' : k0 = k'
      · simp [delKey, h, assocFind, h', hne]
      · simpa [delKey, h, assocFind, h'] using ih

theorem assocFind_setKey_self (fs : List (String × Json)) (k : String) (v : Json) :
    assocFind (setKey fs k v) k = some v := by
  induction fs with
  | nil => simp [setKey, assocFind]
  | cons p rest ih =>
    obtain ⟨k0, v0⟩ := p
    by_cases h : k0 = k
    · simp [setKey, h, assocFind]
    · simpa [setKey, h, assocFind] using ih

theorem assocFind_setKey_ne (fs : List (String × Json)) (k k' : String) (v : Json) (hne : k' ≠ k) :
    assocFind (setKey fs k v) k' = assocFind fs k' := by
  induction fs with
  | nil => simp [setKey, assocFind, Ne.symm hne]
  | cons p rest ih =>
    obtain ⟨k0, v0⟩ := p
    by_cases h : k0 = k
    · subst h
      simp [setKey, assocFind, Ne.symm hne]
    · by_cases h' : k0 = k'
      · simp [setKey, h, assocFind, h', hne]
      · simpa [setKey, h, assocFind, h'] using ih

/-- The isObject helper of src/server.js: truthy, of object type, and
not an array, which for JSON values means exactly a plain object. -/
def isObject : Json → Bool
  | Json.obj _ => true
  | _ => false

/-- The value deepMerge stores at a source key holding a non-null value
w: objects are taken verbatim when the target lacks the key and merged
recursively when it has it; anything else overwrites. -/
def mergeVal (target : Json) (k : String) : Json → Json
  | Json.obj vfs =>
    match jsGet target k with
    | none => Json.obj vfs
    | some tv => deepMerge tv (Json.obj vfs)
  | w => w

theorem mergeFields_nil (target : Json) (out : List (String × Json)) :
    mergeFields target out [] = out := by
  simp [mergeFields]

theorem mergeFields_cons_null (target : Json) (out rest : List (String × Json)) (k : String) :
    mergeFields target out ((k, Json.null) :: rest) = mergeFields target (delKey out k) rest := by
  simp [mergeFields]

theorem mergeFields_cons_ne_null (target : Json) (out rest : List (String × Json))
    (k : String) (v : Json) (hv : v ≠ Json.null) :
    mergeFields target out ((k, v) :: rest)
      = mergeFields target (setKey out k (mergeVal target k v)) rest := by
  cases v with
  | null => exact absurd rfl hv
  | obj vfs => cases h : jsGet target k <;> simp [mergeFields, mergeVal, h]
  | bool b => simp [mergeFields, mergeVal]
  | num n => simp [mergeFields, mergeVal]
  | str s => simp [mergeFields, mergeVal]
  | arr xs => simp [mergeFields, mergeVal]

theorem deepMerge_obj (tfs sfs : List (String × Json)) :
    deepMerge (Json.obj tfs) (Json.obj sfs) = Json.obj (mergeFields (Json.obj tfs) tfs sfs) := by
  simp [deepMerge]

theorem deepMerge_not_obj (t s : Json) (h : isObject t = false) :
    deepMerge t s = Json.obj (spreadFields t) := by
  cases t <;> simp [isObject] at h ⊢ <;> cases s <;> simp [deepMerge]

/-- Keys not mentioned by the source survive the merge loop unchanged. -/
theorem assocFind_mergeFields_not_mem (src : List (String × Json)) (target : Json)
    (out : List (String × Json)) (k : String) (h : k ∉ src.map Prod.fst) :
    assocFind (mergeFields target out src) k = assocFind out k := by
  induction src generalizing out with
  | nil => simp [mergeFields]
  | cons p rest ih =>
    obtain ⟨k0, v0⟩ := p
    simp only [List.map_cons, List.mem_cons, not_or] at h
    obtain ⟨hk0, hrest⟩ := h
    by_cases hv : v0 = Json.null
    · subst hv
      rw [mergeFields_cons_null, ih _ hrest, assocFind_delKey_ne _ _ _ hk0]
    · rw [mergeFields_cons_ne_null _ _ _ _ _ hv, ih _ hrest, assocFind_setKey_ne _ _ _ _ hk0]

/-- A key the source maps to null is absent from the merge loop result. -/
theorem assocFind_mergeFields_null (src : List (String × Json)) (target : Json)
    (out : List (String × Json)) (k : String)
    (hnd : (src.map Prod.fst).Nodup) (h : assocFind src k = some Json.null) :
    assocFind (mergeFields target out src) k = none := by
  induction src generalizing out with
  | nil => simp [assocFind] at h
  | cons p rest ih =>
    obtain ⟨k0, v0⟩ := p
    simp only [List.map_cons, List.nodup_cons] at hnd
    by_cases hk : k0 = k
    · subst hk
      have hv : v0 = Json.null := by simpa [assocFind] using h
      subst hv
      rw [mergeFields_cons_null,
        assocFind_mergeFields_not_mem rest target _ k0 hnd.1,
        assocFind_delKey_self]
    · have h' : assocFind rest k = some Json.null := by simpa [assocFind, hk] using h
      by_cases hv : v0 = Json.null
      · subst hv
        rw [mergeFields_cons_null]
        exact ih _ hnd.2 h'
      · rw [mergeFields_cons_ne_null _ _ _ _ _ hv]
        exact ih _ hnd.2 h'

/-- A key the source maps to a non-null value ends up holding the
merged value dictated by deepMerge for that entry. -/
theorem assocFind_mergeFields_val (src : List (String × Json)) (target : Json)
    (out : List (String × Json)) (k : String) (w : Json)
    (hnd : (src.map Prod.fst).Nodup) (h : assocFind src k = some w) (hw : w ≠ Json.null) :
    assocFind (mergeFields target out src) k = some (mergeVal target k w) := by
  induction src generalizing out with
  | nil => simp [assocFind] at h
  | cons p rest ih =>
    obtain ⟨k0, v0⟩ := p
    simp only [List.map_cons, List.nodup_cons] at hnd
    by_cases hk : k0 = k
    · subst hk
      have hv : v0 = w := by simpa [assocFind] using h
      subst hv
      rw [mergeFields_cons_ne_null _ _ _ _ _ hw,
        assocFind_mergeFields_not_mem rest target _ k0 hnd.1,
        assocFind_setKey_self]
    · have h' : assocFind rest k = some w := by simpa [assocFind, hk] using h
      by_cases hv : v0 = Json.null
      · subst hv
        rw [mergeFields_cons_null]
        exact ih _ hnd.2 h'
      · rw [mergeFields_cons_ne_null _ _ _ _ _ hv]
        exact ih _ hnd.2 h'

theorem jsEqOpt_str_iff (x : Option Json) (s : String) :
    jsEqOpt x (some (Json.str s)) = true ↔ x = some (Json.str s) := by
  cases x with
  | none => simp [jsEqOpt]
  | some v => cases v <;> simp [jsEqOpt, jsEq]

theorem jsEqOpt_str_left_iff (x : Option Json) (s : String) :
    jsEqOpt (some (Json.str s)) x = true ↔ x = some (Json.str s) := by
  cases x with
  | none => simp [jsEqOpt]
  | some v =>
    cases v with
    | str b =>
      simp only [jsEqOpt, jsEq, beq_iff_eq, Option.some.injEq, Json.str.injEq]
      exact eq_comm
    | null => simp [jsEqOpt, jsEq]
    | bool b => simp [jsEqOpt, jsEq]
    | num n => simp [jsEqOpt, jsEq]
    | arr xs => simp [jsEqOpt, jsEq]
    | obj fs => simp [jsEqOpt, jsEq]

theorem assocFind_eq_none_iff (fs : List (String × Json)) (k : String) :
    assocFind fs k = none ↔ k ∉ fs.map Prod.fst := by
  induction fs with
  | nil => simp [assocFind]
  | cons p rest ih =>
    obtain ⟨k0, v0⟩ := p
    by_cases h : k0 = k
    · subst h
      simp [assocFind]
    · simp [assocFind, h, ih, Ne.symm h]

/-- Concrete stored game used by the concrete theorems below: admin
token T, table 1 held by session S1, table 2 by S2, management lock
held by A. -/
def gameAFields : List (String × Json) :=
  [("gameId", Json.str "g1"),
   ("adminToken", Json.str "T"),
   ("currentRound", Json.num 1),
   ("tables", Json.obj
      [("1", Json.obj [("sessionId", Json.str "S1"), ("scores", Json.obj [])]),
       ("2", Json.obj [("sessionId", Json.str "S2"), ("scores", Json.obj [])])]),
   ("managementSessionId", Json.str "A")]

def gameA : Json := Json.obj gameAFields

/-- C6: in deepMerge, a key the update maps to explicit null is absent
from the result whether or not the existing document held it; keys the
update does not mention keep their existing values; and concretely
merging the deletion of key a into a two-key document keeps only b. -/
theorem c6_merge_deletion_and_preservation
    (tfs ufs : List (String × Json)) (k : String)
    (hnd : (ufs.map Prod.fst).Nodup) :
    (assocFind ufs k = some Json.null →
      jsGet (deepMerge (Json.obj tfs) (Json.obj ufs)) k = none)
    ∧ (assocFind ufs k = none →
      jsGet (deepMerge (Json.obj tfs) (Json.obj ufs)) k = assocFind tfs k)
    ∧ deepMerge (Json.obj [("a", Json.num 1), ("b", Json.num 2)]) (Json.obj [("a", Json.null)])
        = Json.obj [("b", Json.num 2)] := by
  refine ⟨?_, ?_, ?_⟩
  · intro h
    rw [deepMerge_obj, jsGet_obj]
    exact assocFind_mergeFields_null ufs _ tfs k hnd h
  · intro h
    rw [deepMerge_obj, jsGet_obj]
    exact assocFind_mergeFields_not_mem ufs _ tfs k ((assocFind_eq_none_iff ufs k).mp h)
  · simp [deepMerge, mergeFields, delKey]

/-- C6 witness: the general theorem applied to the documents of the
concrete deletion example. -/
theorem c6_witness :
    (([("a", Json.null)].map (Prod.fst (α := String) (β := Json))).Nodup)
    ∧ ((assocFind [("a", Json.null)] "a" = some Json.null →
        jsGet (deepMerge (Json.obj [("a", Json.num 1), ("b", Json.num 2)]) (Json.obj [("a", Json.null)])) "a" = none)
      ∧ (assocFind [("a", Json.null)] "a" = none →
        jsGet (deepMerge (Json.obj [("a", Json.num 1), ("b", Json.num 2)]) (Json.obj [("a", Json.null)])) "a"
          = assocFind [("a", Json.num 1), ("b", Json.num 2)] "a")
      ∧ deepMerge (Json.obj [("a", Json.num 1), ("b", Json.num 2)]) (Json.obj [("a", Json.null)])
          = Json.obj [("b", Json.num 2)]) :=
  ⟨by simp, c6_merge_deletion_and_preservation
      [("a", Json.num 1), ("b", Json.num 2)] [("a", Json.null)] "a" (by simp)⟩

/-- C8: an update mapping adminToken to null passes through the merge
path with no special-case protection: whenever the authorization checks
pass, the persisted merged document no longer carries adminToken. -/
theorem c8_adminToken_strippable
    (tfs ufs : List (String × Json)) (adminToken sessionId : Option String)
    (hAdminNull : assocFind ufs "adminToken" = some Json.null)
    (hnd : (ufs.map Prod.fst).Nodup)
    (hauth : authorize (Json.obj tfs) (Json.obj ufs) adminToken sessionId = none) :
    (handlePatch (some (Json.obj tfs)) (some (Json.obj ufs)) adminToken sessionId)
      = PatchResult.mk (Resp.ok (deepMerge (Json.obj tfs) (Json.obj ufs)))
          (some (deepMerge (Json.obj tfs) (Json.obj ufs))) true
    ∧ jsGet (deepMerge (Json.obj tfs) (Json.obj ufs)) "adminToken" = none := by
  constructor
  · simp [handlePatch, truthy, hauth]
  · rw [deepMerge_obj, jsGet_obj]
    exact assocFind_mergeFields_null ufs _ tfs "adminToken" hnd hAdminNull

/-- C8 witness: a credential-free PATCH of adminToken null against the
concrete game document is authorized and strips the token. -/
theorem c8_witness :
    (assocFind [("adminToken", Json.null)] "adminToken" = some Json.null)
    ∧ (([("adminToken", Json.null)].map (Prod.fst (α := String) (β := Json))).Nodup)
    ∧ (authorize (Json.obj gameAFields) (Json.obj [("adminToken", Json.null)]) none none = none)
    ∧ ((handlePatch (some (Json.obj gameAFields)) (some (Json.obj [("adminToken", Json.null)])) none none)
        = PatchResult.mk (Resp.ok (deepMerge (Json.obj gameAFields) (Json.obj [("adminToken", Json.null)])))
            (some (deepMerge (Json.obj gameAFields) (Json.obj [("adminToken", Json.null)]))) true
      ∧ jsGet (deepMerge (Json.obj gameAFields) (Json.obj [("adminToken", Json.null)])) "adminToken" = none) :=
  ⟨rfl, by simp, rfl,
    c8_adminToken_strippable gameAFields [("adminToken", Json.null)] none none rfl (by simp) rfl⟩

/-- C9: a PATCH whose update maps the top-level key tables to null is
applied for every credential set: the truthiness guard on updates.tables
skips the unlock and score checks, no other facet triggers, and the
merge deletes the whole tables mapping from the stored document. -/
theorem c9_tables_null_bypass
    (tfs : List (String × Json)) (adminToken sessionId : Option String) :
    ∃ d, (handlePatch (some (Json.obj tfs)) (some (Json.obj [("tables", Json.null)])) adminToken sessionId)
        = PatchResult.mk (Resp.ok d) (some d) true
      ∧ jsGet d "tables" = none
      ∧ (∀ t, tableSessionId d t = none) := by
  refine ⟨deepMerge (Json.obj tfs) (Json.obj [("tables", Json.null)]), ?_, ?_, ?_⟩
  · have hauth : authorize (Json.obj tfs) (Json.obj [("tables", Json.null)]) adminToken sessionId = none := rfl
    simp [handlePatch, truthy, hauth]
  · rw [deepMerge_obj, jsGet_obj]
    exact assocFind_mergeFields_null _ _ tfs "tables" (by simp) rfl
  · intro t
    have h : jsGet (deepMerge (Json.obj tfs) (Json.obj [("tables", Json.null)])) "tables" = none := by
      rw [deepMerge_obj, jsGet_obj]
      exact assocFind_mergeFields_null _ _ tfs "tables" (by simp) rfl
    simp [tableSessionId, h, optChain]

/-- C10 counterexample: when the existing value at k is the string ab
(a non-null, non-mapping scalar) and the update holds a nested mapping
at k, the merge result at k is the spread of the string - the mapping
of character-index entries - not the empty mapping the claim states. -/
theorem c10_counterexample :
    jsGet (deepMerge (Json.obj [("k", Json.str "ab")])
        (Json.obj [("k", Json.obj [("x", Json.num 1)])])) "k"
      = some (Json.obj [("0", Json.str "a"), ("1", Json.str "b")])
    ∧ isObject (Json.str "ab") = false
    ∧ Json.str "ab" ≠ Json.null
    ∧ (Json.obj [("0", Json.str "a"), ("1", Json.str "b")] ≠ Json.obj ([] : List (String × Json))) := by
  refine ⟨?_, rfl, by simp, by simp⟩
  rw [deepMerge_obj, jsGet_obj, mergeFields_cons_ne_null _ _ _ _ _ (by simp), mergeFields_nil,
    assocFind_setKey_self]
  have h : mergeVal (Json.obj [("k", Json.str "ab")]) "k" (Json.obj [("x", Json.num 1)])
      = deepMerge (Json.str "ab") (Json.obj [("x", Json.num 1)]) := rfl
  rw [h, deepMerge_not_obj (Json.str "ab") (Json.obj [("x", Json.num 1)]) rfl]
  rfl

/-- C10 amended: merge recurses into the pair and returns the object
spread of the scalar at that key: the empty mapping for numbers and
booleans, the character-index mapping for strings; in every case the
update's nested content at the key is discarded. -/
theorem c10_amended (tfs ufs vfs : List (String × Json)) (k : String) (v : Json)
    (htv : assocFind tfs k = some v) (hvo : isObject v = false) (hvn : v ≠ Json.null)
    (hu : assocFind ufs k = some (Json.obj vfs)) (hnd : (ufs.map Prod.fst).Nodup) :
    jsGet (deepMerge (Json.obj tfs) (Json.obj ufs)) k = some (Json.obj (spreadFields v))
    ∧ (∀ n : Int, v = Json.num n → spreadFields v = [])
    ∧ (∀ b : Bool, v = Json.bool b → spreadFields v = []) := by
  refine ⟨?_, ?_, ?_⟩
  · rw [deepMerge_obj, jsGet_obj,
      assocFind_mergeFields_val ufs _ tfs k (Json.obj vfs) hnd hu (by simp)]
    have h : mergeVal (Json.obj tfs) k (Json.obj vfs) = deepMerge v (Json.obj vfs) := by
      unfold mergeVal
      rw [jsGet_obj, htv]
    rw [h, deepMerge_not_obj v (Json.obj vfs) hvo]
  · intro n hn
    subst hn
    rfl
  · intro b hb
    subst hb
    rfl

/-- C10 witness: the amended theorem at the string instance of the
counterexample and at a numeric instance. -/
theorem c10_witness :
    (assocFind [("k", Json.str "ab")] "k" = some (Json.str "ab"))
    ∧ isObject (Json.str "ab") = false
    ∧ Json.str "ab" ≠ Json.null
    ∧ (assocFind [("k", Json.obj [("x", Json.num 1)])] "k" = some (Json.obj [("x", Json.num 1)]))
    ∧ (([("k", Json.obj [("x", Json.num 1)])].map (Prod.fst (α := String) (β := Json))).Nodup)
    ∧ (jsGet (deepMerge (Json.obj [("k", Json.str "ab")]) (Json.obj [("k", Json.obj [("x", Json.num 1)])])) "k"
        = some (Json.obj (spreadFields (Json.str "ab")))
      ∧ (∀ n : Int, Json.str "ab" = Json.num n → spreadFields (Json.str "ab") = [])
      ∧ (∀ b : Bool, Json.str "ab" = Json.bool b → spreadFields (Json.str "ab") = [])) :=
  ⟨rfl, rfl, by simp, rfl, by simp,
    c10_amended [("k", Json.str "ab")] [("k", Json.obj [("x", Json.num 1)])] [("x", Json.num 1)]
      "k" (Json.str "ab") rfl rfl (by simp) rfl (by simp)⟩

/-- The PATCH pipeline on a stored document and a truthy update body is
determined by the authorization outcome. -/
theorem handlePatch_obj (es : List (String × Json)) (u : Json) (hu : truthy u = true)
    (adminToken sessionId : Option String) :
    handlePatch (some (Json.obj es)) (some u) adminToken sessionId
      = (match authorize (Json.obj es) u adminToken sessionId with
         | some d => PatchResult.mk (Resp.err d.1 d.2) (some (Json.obj es)) false
         | none => PatchResult.mk (Resp.ok (deepMerge (Json.obj es) u))
             (some (deepMerge (Json.obj es) u)) true) := by
  simp [handlePatch, hu]

/-- C1 counterexample: with currentRound in the update, a wrong admin
token together with a session id that does match table 1 is denied 403,
although the claim's condition (session id equals a table sessionId)
holds, so the stated iff fails. -/
theorem c1_counterexample :
    (handlePatch (some gameA) (some (Json.obj [("currentRound", Json.num 2)])) (some "X") (some "S1")).resp
      = Resp.err 403 "Invalid admin token"
    ∧ tableSessionId gameA "1" = some (Json.str "S1")
    ∧ jsGet gameA "adminToken" = some (Json.str "T")
    ∧ "X" ≠ "T" :=
  ⟨rfl, rfl, rfl, by simp⟩

/-- C1 amended: when the update contains currentRound, the facet allows
iff a truthy admin token is supplied and equals the stored adminToken,
or no truthy admin token is supplied and a truthy session id is
supplied that equals the sessionId of table 1 or table 2; a supplied
but invalid admin token is denied even when the session id matches, and
with neither credential the facet denies 403. -/
theorem c1_amended (existingGame updates : Json) (adminToken sessionId : Option String)
    (hcr : jsHasOwn updates "currentRound" = true) :
    (roundCheck existingGame updates adminToken sessionId = none ↔
      (∃ a, hdrVal adminToken = some a ∧ jsGet existingGame "adminToken" = some (Json.str a))
      ∨ (hdrVal adminToken = none ∧ ∃ s, hdrVal sessionId = some s ∧
          (tableSessionId existingGame "1" = some (Json.str s)
            ∨ tableSessionId existingGame "2" = some (Json.str s))))
    ∧ (hdrVal adminToken = none → hdrVal sessionId = none →
        roundCheck existingGame updates adminToken sessionId
          = some (403, "Authorization required to advance round")) := by
  unfold roundCheck
  rw [hcr]
  simp only [if_true]
  constructor
  · cases hA : hdrVal adminToken with
    | some a =>
      dsimp only
      by_cases hv : jsEqOpt (jsGet existingGame "adminToken") (some (Json.str a)) = true
      · rw [if_pos hv]
        refine ⟨fun _ => Or.inl ⟨a, rfl, (jsEqOpt_str_iff _ _).mp hv⟩, fun _ => rfl⟩
      · rw [if_neg hv]
        have hne : jsGet existingGame "adminToken" ≠ some (Json.str a) :=
          fun hc => hv ((jsEqOpt_str_iff _ _).mpr hc)
        simp [hne]
    | none =>
      cases hS : hdrVal sessionId with
      | some s =>
        dsimp only
        by_cases ht : (jsEqOpt (tableSessionId existingGame "1") (some (Json.str s))
            || jsEqOpt (tableSessionId existingGame "2") (some (Json.str s))) = true
        · rw [if_pos ht]
          rw [Bool.or_eq_true] at ht
          refine ⟨fun _ => Or.inr ⟨rfl, s, rfl, ?_⟩, fun _ => rfl⟩
          rcases ht with h1 | h2
          · exact Or.inl ((jsEqOpt_str_iff _ _).mp h1)
          · exact Or.inr ((jsEqOpt_str_iff _ _).mp h2)
        · rw [if_neg ht]
          rw [Bool.or_eq_true, not_or] at ht
          have h1 : tableSessionId existingGame "1" ≠ some (Json.str s) :=
            fun hc => ht.1 ((jsEqOpt_str_iff _ _).mpr hc)
          have h2 : tableSessionId existingGame "2" ≠ some (Json.str s) :=
            fun hc => ht.2 ((jsEqOpt_str_iff _ _).mpr hc)
          simp [h1, h2]
      | none => simp
  · intro hA hS
    rw [hA, hS]

/-- C1 witness: the amended characterization applied to the concrete
game, confirming that a matching table-2 session id alone advances the
round and that the iff holds there. -/
theorem c1_witness :
    jsHasOwn (Json.obj [("currentRound", Json.num 2)]) "currentRound" = true
    ∧ ((roundCheck gameA (Json.obj [("currentRound", Json.num 2)]) none (some "S2") = none ↔
        (∃ a, hdrVal (none : Option String) = some a ∧ jsGet gameA "adminToken" = some (Json.str a))
        ∨ (hdrVal (none : Option String) = none ∧ ∃ s, hdrVal (some "S2") = some s ∧
            (tableSessionId gameA "1" = some (Json.str s)
              ∨ tableSessionId gameA "2" = some (Json.str s))))
      ∧ (hdrVal (none : Option String) = none → hdrVal (some "S2") = none →
          roundCheck gameA (Json.obj [("currentRound", Json.num 2)]) none (some "S2")
            = some (403, "Authorization required to advance round"))) :=
  ⟨rfl, c1_amended gameA (Json.obj [("currentRound", Json.num 2)]) none (some "S2") rfl⟩

/-- A PATCH whose update is a single table entry is authorized exactly
by the table loop on that entry: the round and management facets do not
trigger. -/
theorem authorize_single_table (es tufs : List (String × Json)) (t : String)
    (adminToken sessionId : Option String) :
    authorize (Json.obj es) (Json.obj [("tables", Json.obj [(t, Json.obj tufs)])]) adminToken sessionId
      = checkOneTable (Json.obj es) adminToken sessionId t (Json.obj tufs) := by
  unfold authorize
  have hr : roundCheck (Json.obj es) (Json.obj [("tables", Json.obj [(t, Json.obj tufs)])])
      adminToken sessionId = none := rfl
  have hm : managementCheck (Json.obj es) (Json.obj [("tables", Json.obj [(t, Json.obj tufs)])])
      adminToken sessionId = none := rfl
  have ht : tablesCheck (Json.obj es) (Json.obj [("tables", Json.obj [(t, Json.obj tufs)])])
      adminToken sessionId
      = (match checkOneTable (Json.obj es) adminToken sessionId t (Json.obj tufs) with
         | some d => some d
         | none => none) := rfl
  rw [hr, ht, hm]
  cases checkOneTable (Json.obj es) adminToken sessionId t (Json.obj tufs) <;> rfl

/-- A single-table entry carrying sessionId null and no truthy scores
field reduces to the unlock decision of the source. -/
theorem checkOneTable_unlock (es tufs : List (String × Json)) (t : String)
    (adminToken sessionId : Option String)
    (hsid : assocFind tufs "sessionId" = some Json.null)
    (hsc : optTruthy (assocFind tufs "scores") = false) :
    checkOneTable (Json.obj es) adminToken sessionId t (Json.obj tufs)
      = (match hdrVal adminToken with
         | some a =>
           if jsEqOpt (jsGet (Json.obj es) "adminToken") (some (Json.str a)) then none
           else some (403, "Invalid admin token")
         | none =>
           match hdrVal sessionId with
           | some s =>
             if jsEqOpt (tableSessionId (Json.obj es) t) (some (Json.str s)) then none
             else some (403, "Invalid session - cannot unlock this table")
           | none => some (403, "Authorization required to unlock table")) := by
  have h1 : jsGet (Json.obj tufs) "sessionId" = some Json.null := hsid
  have h2 : optTruthy (jsGet (Json.obj tufs) "scores") = false := hsc
  unfold checkOneTable
  dsimp only
  rw [h1, h2]
  simp only [tableSessionId]
  cases hdrVal adminToken with
  | some a =>
    dsimp only
    by_cases hv : jsEqOpt (jsGet (Json.obj es) "adminToken") (some (Json.str a)) = true
    · rw [if_pos hv]
      rfl
    · rw [if_neg hv]
      rfl
  | none =>
    dsimp only
    cases hdrVal sessionId with
    | some s =>
      dsimp only
      by_cases hv : jsEqOpt (optChain (optChain (jsGet (Json.obj es) "tables") t) "sessionId")
          (some (Json.str s)) = true
      · rw [if_pos hv]
        rfl
      · rw [if_neg hv]
        rfl
    | none => rfl

/-- C3 counterexample: a table-unlock PATCH with a wrong admin token
and a session id equal to table 1's current sessionId is denied 403,
although the claim's iff condition holds. -/
theorem c3_counterexample :
    (handlePatch (some gameA)
        (some (Json.obj [("tables", Json.obj [("1", Json.obj [("sessionId", Json.null)])])]))
        (some "X") (some "S1")).resp
      = Resp.err 403 "Invalid admin token"
    ∧ tableSessionId gameA "1" = some (Json.str "S1")
    ∧ jsGet gameA "adminToken" = some (Json.str "T")
    ∧ "X" ≠ "T" :=
  ⟨rfl, rfl, rfl, by simp⟩

/-- C3 amended: a table entry with explicit sessionId null is allowed
iff a truthy admin token is supplied and valid, or no truthy admin
token is supplied and the truthy session id equals that table's current
sessionId; a supplied but invalid admin token is denied even when the
session id matches; with no credentials the request is denied 403, and
every denial here carries status 403. -/
theorem c3_amended (es tufs : List (String × Json)) (t : String)
    (adminToken sessionId : Option String)
    (hsid : assocFind tufs "sessionId" = some Json.null)
    (hsc : optTruthy (assocFind tufs "scores") = false) :
    (respOk (handlePatch (some (Json.obj es))
        (some (Json.obj [("tables", Json.obj [(t, Json.obj tufs)])])) adminToken sessionId).resp = true ↔
      (∃ a, hdrVal adminToken = some a ∧ jsGet (Json.obj es) "adminToken" = some (Json.str a))
      ∨ (hdrVal adminToken = none ∧ ∃ s, hdrVal sessionId = some s ∧
          tableSessionId (Json.obj es) t = some (Json.str s)))
    ∧ (hdrVal adminToken = none → hdrVal sessionId = none →
        (handlePatch (some (Json.obj es))
            (some (Json.obj [("tables", Json.obj [(t, Json.obj tufs)])])) adminToken sessionId).resp
          = Resp.err 403 "Authorization required to unlock table")
    ∧ (∀ st m, (handlePatch (some (Json.obj es))
        (some (Json.obj [("tables", Json.obj [(t, Json.obj tufs)])])) adminToken sessionId).resp
          = Resp.err st m → st = 403) := by
  have hp := handlePatch_obj es (Json.obj [("tables", Json.obj [(t, Json.obj tufs)])]) rfl
    adminToken sessionId
  rw [authorize_single_table es tufs t adminToken sessionId,
    checkOneTable_unlock es tufs t adminToken sessionId hsid hsc] at hp
  rw [hp]
  clear hp
  refine ⟨?_, ?_, ?_⟩
  · cases hA : hdrVal adminToken with
    | some a =>
      dsimp only
      by_cases hv : jsEqOpt (jsGet (Json.obj es) "adminToken") (some (Json.str a)) = true
      · rw [if_pos hv]
        exact ⟨fun _ => Or.inl ⟨a, rfl, (jsEqOpt_str_iff _ _).mp hv⟩, fun _ => rfl⟩
      · rw [if_neg hv]
        have hne : jsGet (Json.obj es) "adminToken" ≠ some (Json.str a) :=
          fun hc => hv ((jsEqOpt_str_iff _ _).mpr hc)
        simp [respOk, hne]
    | none =>
      dsimp only
      cases hS : hdrVal sessionId with
      | some s =>
        dsimp only
        by_cases hv : jsEqOpt (tableSessionId (Json.obj es) t) (some (Json.str s)) = true
        · rw [if_pos hv]
          exact ⟨fun _ => Or.inr ⟨rfl, s, rfl, (jsEqOpt_str_iff _ _).mp hv⟩, fun _ => rfl⟩
        · rw [if_neg hv]
          have hne : tableSessionId (Json.obj es) t ≠ some (Json.str s) :=
            fun hc => hv ((jsEqOpt_str_iff _ _).mpr hc)
          simp [respOk, hne]
      | none => simp [respOk]
  · intro hA hS
    rw [hA, hS]
  · intro st m
    cases hA : hdrVal adminToken with
    | some a =>
      dsimp only
      by_cases hv : jsEqOpt (jsGet (Json.obj es) "adminToken") (some (Json.str a)) = true
      · rw [if_pos hv]
        intro h
        exact absurd h (by simp)
      · rw [if_neg hv]
        intro h
        simpa using congrArg (fun r => match r with | Resp.err n _ => n | _ => 0) h |>.symm
    | none =>
      dsimp only
      cases hS : hdrVal sessionId with
      | some s =>
        dsimp only
        by_cases hv : jsEqOpt (tableSessionId (Json.obj es) t) (some (Json.str s)) = true
        · rw [if_pos hv]
          intro h
          exact absurd h (by simp)
        · rw [if_neg hv]
          intro h
          simpa using congrArg (fun r => match r with | Resp.err n _ => n | _ => 0) h |>.symm
      | none =>
        intro h
        simpa using congrArg (fun r => match r with | Resp.err n _ => n | _ => 0) h |>.symm

/-- C3 witness: the amended characterization at a concrete single-table
unlock by the session currently holding table 1. -/
theorem c3_witness :
    assocFind [("sessionId", Json.null)] "sessionId" = some Json.null
    ∧ optTruthy (assocFind [("sessionId", Json.null)] "scores") = false
    ∧ respOk (handlePatch (some (Json.obj gameAFields))
        (some (Json.obj [("tables", Json.obj [("1", Json.obj [("sessionId", Json.null)])])]))
        none (some "S1")).resp = true :=
  ⟨rfl, rfl,
    ((c3_amended gameAFields [("sessionId", Json.null)] "1" none (some "S1") rfl rfl).1).mpr
      (Or.inr ⟨rfl, "S1", rfl, rfl⟩)⟩

/-- A single-table entry carrying a truthy scores field and no explicit
sessionId null reduces to the score-write decision of the source. -/
theorem checkOneTable_scores (es tufs : List (String × Json)) (t : String)
    (adminToken sessionId : Option String)
    (hnou : isNullVal (assocFind tufs "sessionId") = false)
    (hsc : optTruthy (assocFind tufs "scores") = true) :
    checkOneTable (Json.obj es) adminToken sessionId t (Json.obj tufs)
      = (if optTruthy (tableSessionId (Json.obj es) t)
            && !(jsEqOpt (tableSessionId (Json.obj es) t) (assocFind tufs "sessionId")) then
          match hdrVal adminToken with
          | some a =>
            if jsEqOpt (jsGet (Json.obj es) "adminToken") (some (Json.str a)) then none
            else some (403, "Not authorized to update this table")
          | none => some (403, "Not authorized to update this table")
        else none) := by
  have h1 : isNullVal (jsGet (Json.obj tufs) "sessionId") = false := hnou
  have h2 : optTruthy (jsGet (Json.obj tufs) "scores") = true := hsc
  unfold checkOneTable
  dsimp only
  rw [h1, h2]
  rw [show jsGet (Json.obj tufs) "sessionId" = assocFind tufs "sessionId" from rfl]
  simp only [tableSessionId]
  by_cases hc : (optTruthy (optChain (optChain (jsGet (Json.obj es) "tables") t) "sessionId")
      && !(jsEqOpt (optChain (optChain (jsGet (Json.obj es) "tables") t) "sessionId")
            (assocFind tufs "sessionId"))) = true
  · rw [if_pos hc]
    cases hdrVal adminToken with
    | some a =>
      dsimp only
      by_cases hv : jsEqOpt (jsGet (Json.obj es) "adminToken") (some (Json.str a)) = true
      · rw [if_pos hv]
        rfl
      · rw [if_neg hv]
        rfl
    | none => rfl
  · rw [if_neg hc]
    rfl

/-- C4: a table entry writing scores is denied 403 exactly when the
table's current sessionId is truthy, differs from the sessionId carried
in the same entry, and no valid admin token accompanies the request;
it is allowed when the table is unclaimed, when the carried sessionId
matches, or when a valid admin token is supplied. -/
theorem c4_score_write_ownership (es tufs sc : List (String × Json)) (t : String)
    (adminToken sessionId : Option String)
    (hsc : assocFind tufs "scores" = some (Json.obj sc))
    (hnou : isNullVal (assocFind tufs "sessionId") = false)
    (htyp : ∀ v, tableSessionId (Json.obj es) t = some v →
        v = Json.null ∨ ∃ s0, v = Json.str s0 ∧ s0 ≠ "") :
    (respOk (handlePatch (some (Json.obj es))
        (some (Json.obj [("tables", Json.obj [(t, Json.obj tufs)])])) adminToken sessionId).resp = true ↔
      (tableSessionId (Json.obj es) t = none ∨ tableSessionId (Json.obj es) t = some Json.null)
      ∨ (∃ s0, tableSessionId (Json.obj es) t = some (Json.str s0)
          ∧ assocFind tufs "sessionId" = some (Json.str s0))
      ∨ (∃ a, hdrVal adminToken = some a ∧ jsGet (Json.obj es) "adminToken" = some (Json.str a)))
    ∧ (respOk (handlePatch (some (Json.obj es))
        (some (Json.obj [("tables", Json.obj [(t, Json.obj tufs)])])) adminToken sessionId).resp = false →
      (handlePatch (some (Json.obj es))
        (some (Json.obj [("tables", Json.obj [(t, Json.obj tufs)])])) adminToken sessionId).resp
        = Resp.err 403 "Not authorized to update this table") := by
  have hsct : optTruthy (assocFind tufs "scores") = true := by rw [hsc]; rfl
  have hp := handlePatch_obj es (Json.obj [("tables", Json.obj [(t, Json.obj tufs)])]) rfl
    adminToken sessionId
  rw [authorize_single_table es tufs t adminToken sessionId,
    checkOneTable_scores es tufs t adminToken sessionId hnou hsct] at hp
  rw [hp]
  clear hp
  cases hts : tableSessionId (Json.obj es) t with
  | none =>
    rw [if_neg (by simp [optTruthy])]
    exact ⟨⟨fun _ => Or.inl (Or.inl rfl), fun _ => rfl⟩, by intro h; exact absurd h (by simp [respOk])⟩
  | some v =>
    rcases htyp v hts with hv | ⟨s0, rfl, hs0⟩
    · subst hv
      rw [if_neg (by simp [optTruthy, truthy])]
      exact ⟨⟨fun _ => Or.inl (Or.inr rfl), fun _ => rfl⟩, by intro h; exact absurd h (by simp [respOk])⟩
    · have htr : optTruthy (some (Json.str s0)) = true := by
        simp [optTruthy, truthy, hs0]
      by_cases hq : jsEqOpt (some (Json.str s0)) (assocFind tufs "sessionId") = true
      · have hq' : assocFind tufs "sessionId" = some (Json.str s0) :=
          (jsEqOpt_str_left_iff _ _).mp hq
        rw [if_neg (by simp [htr, hq])]
        exact ⟨⟨fun _ => Or.inr (Or.inl ⟨s0, rfl, hq'⟩), fun _ => rfl⟩,
          by intro h; exact absurd h (by simp [respOk])⟩
      · have hq' : assocFind tufs "sessionId" ≠ some (Json.str s0) :=
          fun hc => hq ((jsEqOpt_str_left_iff _ _).mpr hc)
        rw [if_pos (by simp [htr, hq])]
        cases hA : hdrVal adminToken with
        | some a =>
          dsimp only
          by_cases hval : jsEqOpt (jsGet (Json.obj es) "adminToken") (some (Json.str a)) = true
          · rw [if_pos hval]
            exact ⟨⟨fun _ => Or.inr (Or.inr ⟨a, rfl, (jsEqOpt_str_iff _ _).mp hval⟩), fun _ => rfl⟩,
              by intro h; exact absurd h (by simp [respOk])⟩
          · rw [if_neg hval]
            have hvne : jsGet (Json.obj es) "adminToken" ≠ some (Json.str a) :=
              fun hc => hval ((jsEqOpt_str_iff _ _).mpr hc)
            refine ⟨?_, fun _ => rfl⟩
            simp [respOk, hq', hvne, Ne.symm hq']
        | none =>
          refine ⟨?_, fun _ => rfl⟩
          simp [respOk, hq', Ne.symm hq']

/-- C4 witness: the score-write rule at the concrete game, where table
1 is held by S1 and the update carries sessionId S2: denied without a
token, and the denial is the 403 of the source. -/
theorem c4_witness :
    assocFind [("scores", Json.obj [("1", Json.num 3)]), ("sessionId", Json.str "S2")] "scores"
      = some (Json.obj [("1", Json.num 3)])
    ∧ isNullVal (assocFind [("scores", Json.obj [("1", Json.num 3)]), ("sessionId", Json.str "S2")] "sessionId") = false
    ∧ (respOk (handlePatch (some (Json.obj gameAFields))
        (some (Json.obj [("tables", Json.obj
          [("1", Json.obj [("scores", Json.obj [("1", Json.num 3)]), ("sessionId", Json.str "S2")])])]))
        none none).resp = false →
      (handlePatch (some (Json.obj gameAFields))
        (some (Json.obj [("tables", Json.obj
          [("1", Json.obj [("scores", Json.obj [("1", Json.num 3)]), ("sessionId", Json.str "S2")])])]))
        none none).resp = Resp.err 403 "Not authorized to update this table") :=
  ⟨rfl, rfl,
    (c4_score_write_ownership gameAFields
      [("scores", Json.obj [("1", Json.num 3)]), ("sessionId", Json.str "S2")]
      [("1", Json.num 3)] "1" none none rfl rfl
      (fun v hv => Or.inr ⟨"S1", by injection hv with h; exact h.symm, by simp⟩)).2⟩

/-- A PATCH whose update is the single key managementSessionId is
authorized exactly by the management facet. -/
theorem authorize_single_management (es : List (String × Json)) (v : Json)
    (adminToken sessionId : Option String) :
    authorize (Json.obj es) (Json.obj [("managementSessionId", v)]) adminToken sessionId
      = managementCheck (Json.obj es) (Json.obj [("managementSessionId", v)]) adminToken sessionId := by
  unfold authorize
  have hr : roundCheck (Json.obj es) (Json.obj [("managementSessionId", v)])
      adminToken sessionId = none := rfl
  have ht : tablesCheck (Json.obj es) (Json.obj [("managementSessionId", v)])
      adminToken sessionId = none := rfl
  rw [hr, ht]

/-- Acquire shape of the management facet: a non-null requested value
is refused only against a truthy current lock holding a different
value. -/
theorem managementCheck_acquire (es : List (String × Json)) (s : String)
    (adminToken sessionId : Option String) :
    managementCheck (Json.obj es) (Json.obj [("managementSessionId", Json.str s)]) adminToken sessionId
      = (if optTruthy (assocFind es "managementSessionId")
            && !(jsEqOpt (assocFind es "managementSessionId") (some (Json.str s))) then
          some (423, "Management is locked by another session")
        else none) := rfl

/-- Release shape of the management facet: a truthy admin token is
validated; otherwise the raw session header must strictly equal the
current lock value. -/
theorem managementCheck_release (es : List (String × Json))
    (adminToken sessionId : Option String) :
    managementCheck (Json.obj es) (Json.obj [("managementSessionId", Json.null)]) adminToken sessionId
      = (match hdrVal adminToken with
         | some a =>
           if jsEqOpt (jsGet (Json.obj es) "adminToken") (some (Json.str a)) then none
           else some (403, "Invalid admin token")
         | none =>
           if jsEqOpt (Option.map Json.str sessionId) (assocFind es "managementSessionId") then none
           else some (403, "Cannot release management lock - not your session")) := rfl

/-- C2 counterexample: with the management lock held by A, a release
request carrying a wrong admin token together with the holder's own
session id is denied 403, although the claim states that release
succeeds whenever the supplied session id equals the holder. -/
theorem c2_counterexample :
    (handlePatch (some gameA) (some (Json.obj [("managementSessionId", Json.null)]))
        (some "X") (some "A")).resp = Resp.err 403 "Invalid admin token"
    ∧ jsGet gameA "managementSessionId" = some (Json.str "A")
    ∧ jsGet gameA "adminToken" = some (Json.str "T")
    ∧ "X" ≠ "T" :=
  ⟨rfl, rfl, rfl, by simp⟩

/-- C2 amended: the management-lock transitions of the source.  From an
unheld (falsy) lock, acquire(s) succeeds for every requester and sets
the holder; from LOCKED(h), acquire(h) is idempotent and acquire(s)
with s different from h is denied 423 with no state change; release
succeeds for a valid truthy admin token or, when no truthy admin token
is supplied, exactly for the raw session header equal to h; a supplied
but invalid admin token denies the release 403 even for the holder. -/
theorem c2_amended (es : List (String × Json)) (h : String)
    (hne : h ≠ "")
    (hlock : assocFind es "managementSessionId" = some (Json.str h)) :
    (∀ (es' : List (String × Json)) (s : String) (aT sid : Option String),
      optTruthy (assocFind es' "managementSessionId") = false →
      ∃ d, handlePatch (some (Json.obj es'))
          (some (Json.obj [("managementSessionId", Json.str s)])) aT sid
          = PatchResult.mk (Resp.ok d) (some d) true
        ∧ jsGet d "managementSessionId" = some (Json.str s))
    ∧ (∀ (aT sid : Option String),
      ∃ d, handlePatch (some (Json.obj es))
          (some (Json.obj [("managementSessionId", Json.str h)])) aT sid
          = PatchResult.mk (Resp.ok d) (some d) true
        ∧ jsGet d "managementSessionId" = some (Json.str h))
    ∧ (∀ (s : String) (aT sid : Option String), s ≠ h →
      handlePatch (some (Json.obj es))
          (some (Json.obj [("managementSessionId", Json.str s)])) aT sid
        = PatchResult.mk (Resp.err 423 "Management is locked by another session")
            (some (Json.obj es)) false)
    ∧ (∀ (aT sid : Option String) (a : String), hdrVal aT = some a →
      jsGet (Json.obj es) "adminToken" = some (Json.str a) →
      ∃ d, handlePatch (some (Json.obj es))
          (some (Json.obj [("managementSessionId", Json.null)])) aT sid
          = PatchResult.mk (Resp.ok d) (some d) true
        ∧ jsGet d "managementSessionId" = none)
    ∧ (∀ (aT : Option String), hdrVal aT = none →
      ∃ d, handlePatch (some (Json.obj es))
          (some (Json.obj [("managementSessionId", Json.null)])) aT (some h)
          = PatchResult.mk (Resp.ok d) (some d) true
        ∧ jsGet d "managementSessionId" = none)
    ∧ (∀ (aT sid : Option String), hdrVal aT = none → sid ≠ some h →
      handlePatch (some (Json.obj es))
          (some (Json.obj [("managementSessionId", Json.null)])) aT sid
        = PatchResult.mk (Resp.err 403 "Cannot release management lock - not your session")
            (some (Json.obj es)) false)
    ∧ (∀ (aT sid : Option String) (a : String), hdrVal aT = some a →
      jsGet (Json.obj es) "adminToken" ≠ some (Json.str a) →
      handlePatch (some (Json.obj es))
          (some (Json.obj [("managementSessionId", Json.null)])) aT sid
        = PatchResult.mk (Resp.err 403 "Invalid admin token")
            (some (Json.obj es)) false) := by
  refine ⟨?_, ?_, ?_, ?_, ?_, ?_, ?_⟩
  · intro es' s aT sid hun
    refine ⟨deepMerge (Json.obj es') (Json.obj [("managementSessionId", Json.str s)]), ?_, ?_⟩
    · have hp := handlePatch_obj es' (Json.obj [("managementSessionId", Json.str s)]) rfl aT sid
      rw [authorize_single_management, managementCheck_acquire, hun] at hp
      simp only [Bool.false_and, Bool.false_eq_true, if_false] at hp
      rw [hp]
    · rw [deepMerge_obj, jsGet_obj, mergeFields_cons_ne_null _ _ _ _ _ (by simp),
        mergeFields_nil, assocFind_setKey_self]
      rfl
  · intro aT sid
    refine ⟨deepMerge (Json.obj es) (Json.obj [("managementSessionId", Json.str h)]), ?_, ?_⟩
    · have hp := handlePatch_obj es (Json.obj [("managementSessionId", Json.str h)]) rfl aT sid
      rw [authorize_single_management, managementCheck_acquire, hlock] at hp
      have hc : (optTruthy (some (Json.str h)) && !(jsEqOpt (some (Json.str h)) (some (Json.str h)))) = false := by
        simp [optTruthy, truthy, jsEqOpt, jsEq]
      rw [hc] at hp
      simp only [Bool.false_eq_true, if_false] at hp
      rw [hp]
    · rw [deepMerge_obj, jsGet_obj, mergeFields_cons_ne_null _ _ _ _ _ (by simp),
        mergeFields_nil, assocFind_setKey_self]
      rfl
  · intro s aT sid hs
    have hp := handlePatch_obj es (Json.obj [("managementSessionId", Json.str s)]) rfl aT sid
    rw [authorize_single_management, managementCheck_acquire, hlock] at hp
    have hc : (optTruthy (some (Json.str h)) && !(jsEqOpt (some (Json.str h)) (some (Json.str s)))) = true := by
      simp [optTruthy, truthy, jsEqOpt, jsEq, hne, Ne.symm hs]
    rw [hc] at hp
    simp only [if_true] at hp
    rw [hp]
  · intro aT sid a hA hval
    refine ⟨deepMerge (Json.obj es) (Json.obj [("managementSessionId", Json.null)]), ?_, ?_⟩
    · have hp := handlePatch_obj es (Json.obj [("managementSessionId", Json.null)]) rfl aT sid
      rw [authorize_single_management, managementCheck_release, hA] at hp
      dsimp only at hp
      rw [if_pos ((jsEqOpt_str_iff _ _).mpr hval)] at hp
      rw [hp]
    · rw [deepMerge_obj, jsGet_obj, mergeFields_cons_null, mergeFields_nil, assocFind_delKey_self]
  · intro aT hA
    refine ⟨deepMerge (Json.obj es) (Json.obj [("managementSessionId", Json.null)]), ?_, ?_⟩
    · have hp := handlePatch_obj es (Json.obj [("managementSessionId", Json.null)]) rfl aT (some h)
      rw [authorize_single_management, managementCheck_release, hA, hlock] at hp
      dsimp only at hp
      have hc : jsEqOpt (Option.map Json.str (some h)) (some (Json.str h)) = true := by
        simp [jsEqOpt, jsEq]
      rw [if_pos hc] at hp
      rw [hp]
    · rw [deepMerge_obj, jsGet_obj, mergeFields_cons_null, mergeFields_nil, assocFind_delKey_self]
  · intro aT sid hA hsid
    have hp := handlePatch_obj es (Json.obj [("managementSessionId", Json.null)]) rfl aT sid
    rw [authorize_single_management, managementCheck_release, hA, hlock] at hp
    dsimp only at hp
    have hc : jsEqOpt (Option.map Json.str sid) (some (Json.str h)) = false := by
      cases sid with
      | none => rfl
      | some x =>
        have hx : x ≠ h := fun he => hsid (by rw [he])
        simp [jsEqOpt, jsEq, hx]
    rw [hc] at hp
    simp only [Bool.false_eq_true, if_false] at hp
    rw [hp]
  · intro aT sid a hA hinv
    have hp := handlePatch_obj es (Json.obj [("managementSessionId", Json.null)]) rfl aT sid
    rw [authorize_single_management, managementCheck_release, hA] at hp
    dsimp only at hp
    rw [if_neg (fun hc => hinv ((jsEqOpt_str_iff _ _).mp hc))] at hp
    rw [hp]

/-- C2 witness: the amended transition relation at the concrete game
whose lock is held by A: acquiring B is refused 423 with the stored
document unchanged. -/
theorem c2_witness :
    ("A" : String) ≠ ""
    ∧ assocFind gameAFields "managementSessionId" = some (Json.str "A")
    ∧ handlePatch (some (Json.obj gameAFields))
        (some (Json.obj [("managementSessionId", Json.str "B")])) none none
        = PatchResult.mk (Resp.err 423 "Management is locked by another session")
            (some (Json.obj gameAFields)) false :=
  ⟨by simp, rfl,
    (c2_amended gameAFields "A" (by simp) rfl).2.2.1 "B" none none (by simp)⟩

/-- C5 counterexample: with no credentials, an update touching table
1's scores and table 2's unlock is answered with the score-write denial
of table 1, although the table-unlock facet (table 2) also denies; the
claimed facet order (all unlocks before all score writes) would surface
the unlock denial first. -/
theorem c5_counterexample :
    (handlePatch (some gameA)
        (some (Json.obj [("tables", Json.obj
          [("1", Json.obj [("scores", Json.obj [])]),
           ("2", Json.obj [("sessionId", Json.null)])])]))
        none none).resp = Resp.err 403 "Not authorized to update this table"
    ∧ checkOneTable gameA none none "2" (Json.obj [("sessionId", Json.null)])
        = some (403, "Authorization required to unlock table") :=
  ⟨rfl, rfl⟩

/-- C5 amended: every denied PATCH leaves the store untouched and does
not refresh the TTL, and on a truthy body against a stored document the
response carries exactly the first denial of the source's check order:
round advancement, then per table (in key order) unlock then score
write, then management lock. -/
theorem c5_amended :
    (∀ (store body : Option Json) (adminToken sessionId : Option String) (st : Nat) (m : String),
      (handlePatch store body adminToken sessionId).resp = Resp.err st m →
      (handlePatch store body adminToken sessionId).newStore = store
        ∧ (handlePatch store body adminToken sessionId).ttlRefreshed = false)
    ∧ (∀ (g u : Json) (adminToken sessionId : Option String) (d : Nat × String),
      truthy u = true → authorize g u adminToken sessionId = some d →
      (handlePatch (some g) (some u) adminToken sessionId).resp = Resp.err d.1 d.2) := by
  constructor
  · intro store body adminToken sessionId st m hden
    cases body with
    | none => exact ⟨rfl, rfl⟩
    | some u =>
      cases htr : truthy u with
      | false => constructor <;> simp [handlePatch, htr]
      | true =>
        cases store with
        | none => constructor <;> simp [handlePatch, htr]
        | some g =>
          cases hA : authorize g u adminToken sessionId with
          | some d => constructor <;> simp [handlePatch, htr, hA]
          | none => simp [handlePatch, htr, hA] at hden
  · intro g u adminToken sessionId d hu hA
    simp [handlePatch, hu, hA]

/-- C5 witness: a denied round advancement against the concrete game
leaves the stored document and TTL untouched. -/
theorem c5_witness :
    (handlePatch (some gameA) (some (Json.obj [("currentRound", Json.num 1)])) none none).resp
      = Resp.err 403 "Authorization required to advance round"
    ∧ (handlePatch (some gameA) (some (Json.obj [("currentRound", Json.num 1)])) none none).newStore
      = some gameA
    ∧ (handlePatch (some gameA) (some (Json.obj [("currentRound", Json.num 1)])) none none).ttlRefreshed
      = false :=
  ⟨rfl,
    (c5_amended.1 (some gameA) (some (Json.obj [("currentRound", Json.num 1)])) none none
      403 "Authorization required to advance round" rfl).1,
    (c5_amended.1 (some gameA) (some (Json.obj [("currentRound", Json.num 1)])) none none
      403 "Authorization required to advance round" rfl).2⟩

/-- C7 counterexample: an empty-object PATCH body is truthy, so it is
not rejected 400: it is authorized, merged to the unchanged document,
and the TTL is refreshed, although the claim says an empty update body
fails BAD_REQUEST. -/
theorem c7_counterexample :
    (handlePatch (some gameA) (some (Json.obj [])) none none).resp = Resp.ok gameA
    ∧ (handlePatch (some gameA) (some (Json.obj [])) none none).ttlRefreshed = true
    ∧ truthy (Json.obj []) = true := by
  have hauth : authorize gameA (Json.obj []) none none = none := rfl
  have hm : deepMerge gameA (Json.obj []) = gameA := by
    rw [show gameA = Json.obj gameAFields from rfl, deepMerge_obj, mergeFields_nil]
  exact ⟨by simp [handlePatch, truthy, hauth, hm], by simp [handlePatch, truthy, hauth], rfl⟩

/-- C7 amended: a PATCH whose body is absent or a falsy JSON value is
rejected 400 with no store write and no TTL refresh; an empty-object
body is accepted, merges to the unchanged document, and refreshes the
TTL. -/
theorem c7_amended :
    (∀ (store : Option Json) (adminToken sessionId : Option String),
      handlePatch store none adminToken sessionId
        = PatchResult.mk (Resp.err 400 "Invalid request body") store false)
    ∧ (∀ (store : Option Json) (v : Json) (adminToken sessionId : Option String),
      truthy v = false →
      handlePatch store (some v) adminToken sessionId
        = PatchResult.mk (Resp.err 400 "Invalid request body") store false)
    ∧ (∀ (tfs : List (String × Json)) (adminToken sessionId : Option String),
      handlePatch (some (Json.obj tfs)) (some (Json.obj [])) adminToken sessionId
        = PatchResult.mk (Resp.ok (Json.obj tfs)) (some (Json.obj tfs)) true) := by
  refine ⟨fun store adminToken sessionId => rfl, ?_, ?_⟩
  · intro store v adminToken sessionId hv
    simp [handlePatch, hv]
  · intro tfs adminToken sessionId
    have hauth : authorize (Json.obj tfs) (Json.obj []) adminToken sessionId = none := rfl
    have hm : deepMerge (Json.obj tfs) (Json.obj []) = Json.obj tfs := by
      rw [deepMerge_obj, mergeFields_nil]
    simp [handlePatch, truthy, hauth, hm]

/-- C7 witness: a PATCH with a JSON null body (falsy) is rejected 400
without touching the store. -/
theorem c7_witness :
    truthy Json.null = false
    ∧ handlePatch (some gameA) (some Json.null) none none
        = PatchResult.mk (Resp.err 400 "Invalid request body") (some gameA) false :=
  ⟨rfl, c7_amended.2.1 (some gameA) Json.null none none rfl⟩
